import Mathlib

/-!
Verification of the gateway chat handlers of `src/gateway/server-methods/chat.ts`
(`chat.send`, `chat.abort`, `chat.history`) against the repository's
specification.  The handlers are embedded shallowly: the mutable registries of
the gateway context become an explicit `GatewayState`, the agent executor
(`agentCommand`, an external collaborator) becomes a function parameter, and
every observable side effect (session-store save, executor invocation, dedup
cache write, event broadcast, cancellation-token trigger) is recorded in an
explicit trace of `GatewayAction`s so that ordering and absence of effects can
be stated.  Helper modules that the handlers import but whose sources are not
part of the repository snapshot (`buildMessageWithAttachments`,
`resolveSendPolicy`, `capArrayByJsonBytes`, `resolveAgentTimeoutMs`, the
`MAX_CHAT_HISTORY_MESSAGES_BYTES` constant) are modelled from the spec; each
such definition says so in its doc comment.
-/

namespace OpenClaw

/-- Association lists standing for the JS `Map`s of the gateway context
(`chatAbortControllers`, `dedupe`, `agentRunSeq`, ...).  `lookupA` is
`Map.get`. -/
def lookupA {α : Type} : List (String × α) → String → Option α
  | [], _ => none
  | q :: l, k => if q.fst == k then some q.snd else lookupA l k

/-- `Map.set`: replace the entry in place when the key exists, append
otherwise. -/
def insertA {α : Type} : List (String × α) → String → α → List (String × α)
  | [], k, v => [(k, v)]
  | q :: l, k, v => if q.fst == k then (k, v) :: l else q :: insertA l k v

/-- `Map.delete`. -/
def eraseA {α : Type} : List (String × α) → String → List (String × α)
  | [], _ => []
  | q :: l, k => if q.fst == k then eraseA l k else q :: eraseA l k

/-- Error shape `{code, message}` produced by `errorShape` of the protocol
module. -/
structure ErrShape where
  code : String
  message : String
deriving DecidableEq

def errorShape (code message : String) : ErrShape := { code := code, message := message }

/-- `ErrorCodes.INVALID_REQUEST`. -/
def invalidRequestCode : String := "INVALID_REQUEST"

/-- `ErrorCodes.UNAVAILABLE`. -/
def unavailableCode : String := "UNAVAILABLE"

/-- Send-policy rule, spec section 3: `{action: allow|deny, match:
{provider?, chatType?, keyPrefix?, sessionKey?}}`.  The source field
`keyPrefix` is rendered `keyPre` here. -/
inductive PolicyAction where
  | allow
  | deny
deriving DecidableEq

structure SendPolicyRule where
  action : PolicyAction
  provider : Option String := none
  chatType : Option String := none
  keyPre : Option String := none
  sessionKey : Option String := none
deriving DecidableEq

/-- Send policy, spec section 3: `{default: allow|deny, rules: ordered
list}`; first matching rule wins, else the default applies.  The source field
`default` is rendered `dflt`. -/
structure SendPolicy where
  dflt : PolicyAction
  rules : List SendPolicyRule
deriving DecidableEq

/-- SessionEntry of `config/sessions.ts` as used by the chat handlers. -/
structure SessionEntry where
  sessionId : String
  updatedAt : Nat
  thinkingLevel : Option String := none
  verboseLevel : Option String := none
  reasoningLevel : Option String := none
  systemSent : Option Bool := none
  sendPolicy : Option SendPolicy := none
  lastProvider : Option String := none
  lastTo : Option String := none
  provider : Option String := none
  chatType : Option String := none
deriving DecidableEq

/-- Gateway configuration as far as the chat handlers consult it: the agent
default timeout, the configured send policy, and the configured default
thinking level. -/
structure Cfg where
  agentTimeoutMs : Nat
  sendPolicy : Option SendPolicy := none
  thinkingDefault : Option String := none
deriving DecidableEq

/-- Whether one rule matches the session, spec section 3: every present
`match` field must hold; `keyPre` matches a prefix of the session key. -/
def ruleMatches (r : SendPolicyRule) (sessionKey : String)
    (provider chatType : Option String) : Bool :=
  (match r.provider with
   | none => true
   | some pv => provider == some pv) &&
  (match r.chatType with
   | none => true
   | some ct => chatType == some ct) &&
  (match r.keyPre with
   | none => true
   | some kp => kp.isPrefixOf sessionKey) &&
  (match r.sessionKey with
   | none => true
   | some sk => sk == sessionKey)

/-- Modelled from the spec: `resolveSendPolicy` of `sessions/send-policy.ts`
is not part of the snapshot; per spec sections 3 and 4.2 the session entry may
carry a `sendPolicy` override, else the configured policy applies, and the
first matching rule wins, else the default. -/
def resolveSendPolicy (cfg : Cfg) (entry : Option SessionEntry)
    (sessionKey : String) (provider chatType : Option String) : PolicyAction :=
  let policy := (entry.bind SessionEntry.sendPolicy).getD
    (cfg.sendPolicy.getD { dflt := PolicyAction.allow, rules := [] })
  match policy.rules.find? (fun r => ruleMatches r sessionKey provider chatType) with
  | some r => r.action
  | none => policy.dflt

/-- Raw attachment content as it arrives in `chat.send` params: base64 text or
raw bytes (an `ArrayBuffer` view), anything else normalizes to `undefined`. -/
inductive AttachContentIn where
  | text (s : String)
  | bytes (data : List Nat)
  | other
deriving DecidableEq

structure AttachmentIn where
  type : Option String := none
  mimeType : Option String := none
  fileName : Option String := none
  content : Option AttachContentIn := none
deriving DecidableEq

/-- Attachment after the normalization of chat.ts lines 158-173: content is
base64 text when present. -/
structure NormAttachment where
  type : Option String := none
  mimeType : Option String := none
  fileName : Option String := none
  content : Option String := none
deriving DecidableEq

def base64Alphabet : List Char :=
  "ABCDEFGHIJKLMNOPQRSTUVWXYZabcdefghijklmnopqrstuvwxyz0123456789+/".toList

def base64Char (n : Nat) : Char := base64Alphabet.getD n 'A'

/-- Standard base64 of a byte list, embedding `Buffer.toString("base64")`. -/
def encodeBase64 : List Nat → String
  | [] => ""
  | [b0] => String.mk [base64Char (b0 / 4), base64Char (b0 % 4 * 16), '=', '=']
  | [b0, b1] => String.mk [base64Char (b0 / 4), base64Char (b0 % 4 * 16 + b1 / 16),
      base64Char (b1 % 16 * 4), '=']
  | b0 :: b1 :: b2 :: rest =>
      String.mk [base64Char (b0 / 4), base64Char (b0 % 4 * 16 + b1 / 16),
        base64Char (b1 % 16 * 4 + b2 / 64), base64Char (b2 % 64)] ++ encodeBase64 rest

/-- Normalization of one attachment, chat.ts lines 158-173: string content is
kept, raw bytes are base64-encoded, anything else becomes `none`. -/
def normalizeAttachment (a : AttachmentIn) : NormAttachment :=
  { type := a.type, mimeType := a.mimeType, fileName := a.fileName,
    content :=
      match a.content with
      | some (AttachContentIn.text s) => some s
      | some (AttachContentIn.bytes d) => some (encodeBase64 d)
      | _ => none }

/-- Modelled from the spec: `buildMessageWithAttachments` of
`gateway/chat-attachments.ts` is not part of the snapshot; per spec section
4.2 it merges the attachments into the outbound message via a size-bounded
transform and fails when the merged size exceeds `maxBytes`.  Sizes are
counted in characters of the (base64 or text) content, which for the ASCII
payloads involved coincide with bytes. -/
def buildMessageWithAttachments (message : String) (attachments : List NormAttachment)
    (maxBytes : Nat) : Except String String :=
  if message.length + (attachments.map fun a => (a.content.getD "").length).sum > maxBytes
  then Except.error "attachment payload exceeds size limit"
  else Except.ok (message ++ String.join (attachments.map fun a => a.content.getD ""))

/-- Parameters of `chat.send` (already schema-validated, so typed). -/
structure ChatSendParams where
  sessionKey : String
  message : String
  thinking : Option String := none
  deliver : Option Bool := none
  attachments : Option (List AttachmentIn) := none
  timeoutMs : Option Nat := none
  idempotencyKey : String
deriving DecidableEq

/-- Normalized attachments of a request, chat.ts lines 158-173 (`?? []`). -/
def normAtts (p : ChatSendParams) : List NormAttachment :=
  (p.attachments.getD []).map normalizeAttachment

/-- The outbound message after the attachment step, chat.ts lines 174-190:
untouched when there are no attachments, else the size-capped merge with
`maxBytes: 5_000_000`; an error here is the thrown exception of the source. -/
def mergedMessage (p : ChatSendParams) : Except String String :=
  if (normAtts p).length > 0 then
    buildMessageWithAttachments p.message (normAtts p) 5000000
  else Except.ok p.message

def isOkE {ε α : Type} : Except ε α → Bool
  | Except.ok _ => true
  | Except.error _ => false

/-- Terminal payload of a run: `{runId, status}` plus `summary` on error. -/
structure SendPayload where
  runId : String
  status : String
  summary : Option String := none
deriving DecidableEq

/-- Dedup cache entry, spec section 3 DedupEntry: `{ok, payload, error,
timestamp}`. -/
structure DedupEntry where
  ts : Nat
  ok : Bool
  payload : SendPayload
  error : Option ErrShape := none
deriving DecidableEq

/-- Response of `chat.send` as delivered by `respond(ok, payload, error,
meta)`; `cached` is the replay flag of the dedup branch. -/
structure ChatSendResponse where
  ok : Bool
  payload : Option SendPayload
  error : Option ErrShape
  cached : Bool
deriving DecidableEq

/-- Entry of `context.chatAbortControllers`: the cancellation record of a live
run. -/
structure ChatAbortEntry where
  sessionId : String
  sessionKey : String
deriving DecidableEq

/-- Entry of the run queue registered by `context.addChatRun`. -/
structure ChatRunEntry where
  sessionKey : String
  clientRunId : String
deriving DecidableEq

/-- Payload of the "chat" event broadcast on abort: `{runId, sessionKey, seq,
state}`. -/
structure ChatEventPayload where
  runId : String
  sessionKey : String
  seq : Nat
  state : String
deriving DecidableEq

/-- One message record of a per-session transcript file; `bytes` is its
serialized JSON size and `tag` identifies the record. -/
structure Msg where
  bytes : Nat
  tag : Nat
deriving DecidableEq

/-- The mutable registries of the gateway context touched by the chat
handlers, plus the persisted session store and the on-disk transcripts. -/
structure GatewayState where
  dedupe : List (String × DedupEntry)
  chatAbortControllers : List (String × ChatAbortEntry)
  chatRunBuffers : List (String × List String)
  chatDeltaSentAt : List (String × Nat)
  chatRuns : List (String × ChatRunEntry)
  agentRunSeq : List (String × Nat)
  runContexts : List (String × String)
  store : List (String × SessionEntry)
  transcripts : List (String × List Msg)
deriving DecidableEq

/-- Arguments handed to the executor `agentCommand`, chat.ts lines 258-272. -/
structure ExecArgs where
  message : String
  sessionId : String
  sessionKey : String
  runId : String
  thinking : Option String
  deliver : Option Bool
  timeout : String
  messageProvider : String
deriving DecidableEq

/-- Outcome of the awaited executor: it returns normally or throws, and a
thrown value surfaces as the string `String(err)`. -/
inductive ExecResult where
  | success
  | failure (msg : String)
deriving DecidableEq

/-- Observable side effects, in the order the handler performs them. -/
inductive GatewayAction where
  | saveStore (store : List (String × SessionEntry))
  | invokeExecutor (args : ExecArgs)
  | cacheWrite (key : String) (entry : DedupEntry)
  | broadcastChat (payload : ChatEventPayload)
  | sessionChat (sessionKey : String) (payload : ChatEventPayload)
  | abortToken (runId : String)
deriving DecidableEq

/-- The dedup cache key of a run, chat.ts line 231. -/
def chatKey (k : String) : String := "chat:" ++ k

/-- `registerAgentRunContext(clientRunId, {sessionKey})`, chat.ts line 210:
the ambient runId to sessionKey side table, written before execution. -/
def registerAgentRunContext (runId sessionKey : String) (st : GatewayState) :
    GatewayState :=
  { st with runContexts := insertA st.runContexts runId sessionKey }

/-- The send policy decided for the request's session, chat.ts lines 212-218:
evaluated on the loaded entry's provider and chatType. -/
def policyOf (cfg : Cfg) (p : ChatSendParams) (st : GatewayState) : PolicyAction :=
  resolveSendPolicy cfg (lookupA st.store p.sessionKey) p.sessionKey
    ((lookupA st.store p.sessionKey).bind SessionEntry.provider)
    ((lookupA st.store p.sessionKey).bind SessionEntry.chatType)

/-- The session id used for the run, chat.ts line 197: the existing entry's
id, else a fresh UUID (`fresh`). -/
def sessionIdOf (fresh : String) (st : GatewayState) (p : ChatSendParams) : String :=
  ((lookupA st.store p.sessionKey).map SessionEntry.sessionId).getD fresh

/-- The session entry written back by `chat.send`, chat.ts lines 198-208: the
existing optional fields are carried over (in particular `lastProvider` and
`lastTo`); the source does not carry over `provider` and `chatType`. -/
def sessionEntryFor (now : Nat) (sessionId : String) (entry : Option SessionEntry) :
    SessionEntry :=
  { sessionId := sessionId
    updatedAt := now
    thinkingLevel := entry.bind SessionEntry.thinkingLevel
    verboseLevel := entry.bind SessionEntry.verboseLevel
    reasoningLevel := entry.bind SessionEntry.reasoningLevel
    systemSent := entry.bind SessionEntry.systemSent
    sendPolicy := entry.bind SessionEntry.sendPolicy
    lastProvider := entry.bind SessionEntry.lastProvider
    lastTo := entry.bind SessionEntry.lastTo
    provider := none
    chatType := none }

/-- The store as persisted by `chat.send` before invoking the executor,
chat.ts lines 251-256: the whole document with this session's entry replaced. -/
def runStoreAfter (now : Nat) (fresh : String) (p : ChatSendParams)
    (st : GatewayState) : List (String × SessionEntry) :=
  insertA st.store p.sessionKey
    (sessionEntryFor now (sessionIdOf fresh st p) (lookupA st.store p.sessionKey))

/-- Executor arguments, chat.ts lines 258-272; the timeout resolution
(`resolveAgentTimeoutMs`, not in the snapshot) is modelled from the spec as
the override when given, else the config default, and the handler passes
`Math.ceil(timeoutMs / 1000)` as a string. -/
def execArgsFor (cfg : Cfg) (p : ChatSendParams) (m : String) (sessionId : String) :
    ExecArgs :=
  { message := m
    sessionId := sessionId
    sessionKey := p.sessionKey
    runId := p.idempotencyKey
    thinking := p.thinking
    deliver := p.deliver
    timeout := toString ((p.timeoutMs.getD cfg.agentTimeoutMs + 999) / 1000)
    messageProvider := "webchat" }

/-- Success payload cached and returned, chat.ts lines 273-276. -/
def okPayloadFor (p : ChatSendParams) : SendPayload :=
  { runId := p.idempotencyKey, status := "ok", summary := none }

/-- Error payload cached and returned, chat.ts lines 285-289. -/
def errPayloadFor (p : ChatSendParams) (msg : String) : SendPayload :=
  { runId := p.idempotencyKey, status := "error", summary := some msg }

/-- Dedup entry written on success, chat.ts lines 277-281. -/
def okEntryFor (now : Nat) (p : ChatSendParams) : DedupEntry :=
  { ts := now, ok := true, payload := okPayloadFor p, error := none }

/-- Dedup entry written on failure, chat.ts lines 284-295. -/
def errEntryFor (now : Nat) (p : ChatSendParams) (msg : String) : DedupEntry :=
  { ts := now, ok := false, payload := errPayloadFor p msg,
    error := some (errorShape unavailableCode msg) }

/-- The terminal dedup entry of a run as decided by the executor outcome. -/
def terminalEntryFor (exec : ExecArgs → ExecResult) (now : Nat) (fresh : String)
    (cfg : Cfg) (p : ChatSendParams) (st : GatewayState) (m : String) : DedupEntry :=
  match exec (execArgsFor cfg p m (sessionIdOf fresh st p)) with
  | ExecResult.success => okEntryFor now p
  | ExecResult.failure msg => errEntryFor now p msg

/-- The state after the executing branch of `chat.send`, chat.ts lines
239-302: run context registered, run record added (`addChatRun`), the
cancellation entry inserted and then deleted by the `finally`, the store
persisted, the terminal result cached.  `chatRuns` keeps its entry — the
handler's cleanup only deletes the abort controller. -/
def runFinalState (now : Nat) (fresh : String) (p : ChatSendParams)
    (st : GatewayState) (de : DedupEntry) : GatewayState :=
  { dedupe := insertA st.dedupe (chatKey p.idempotencyKey) de
    chatAbortControllers :=
      eraseA (insertA st.chatAbortControllers p.idempotencyKey
        { sessionId := sessionIdOf fresh st p, sessionKey := p.sessionKey })
        p.idempotencyKey
    chatRunBuffers := st.chatRunBuffers
    chatDeltaSentAt := st.chatDeltaSentAt
    chatRuns := insertA st.chatRuns p.idempotencyKey
      { sessionKey := p.sessionKey, clientRunId := p.idempotencyKey }
    agentRunSeq := st.agentRunSeq
    runContexts := insertA st.runContexts p.idempotencyKey p.sessionKey
    store := runStoreAfter now fresh p st
    transcripts := st.transcripts }

/-- The executing branch of `chat.send`, chat.ts lines 239-302: persist the
store, invoke the executor, cache the terminal result, respond with it; the
response mirrors the terminal entry in both the success and the failure
branch. -/
def chatSendRun (exec : ExecArgs → ExecResult) (now : Nat) (fresh : String)
    (cfg : Cfg) (p : ChatSendParams) (st : GatewayState) (m : String) :
    ChatSendResponse × GatewayState × List GatewayAction :=
  ({ ok := (terminalEntryFor exec now fresh cfg p st m).ok
     payload := some (terminalEntryFor exec now fresh cfg p st m).payload
     error := (terminalEntryFor exec now fresh cfg p st m).error
     cached := false },
   runFinalState now fresh p st (terminalEntryFor exec now fresh cfg p st m),
   [GatewayAction.saveStore (runStoreAfter now fresh p st),
    GatewayAction.invokeExecutor (execArgsFor cfg p m (sessionIdOf fresh st p)),
    GatewayAction.cacheWrite (chatKey p.idempotencyKey)
      (terminalEntryFor exec now fresh cfg p st m)])

/-- The `chat.send` handler, chat.ts lines 132-303.  In source order: the
attachment merge (failure responds INVALID_REQUEST before any state change),
run-context registration, the send-policy gate, the dedup check (replay
flagged cached), then the executing branch. -/
def chatSend (exec : ExecArgs → ExecResult) (now : Nat) (fresh : String)
    (cfg : Cfg) (p : ChatSendParams) (st : GatewayState) :
    ChatSendResponse × GatewayState × List GatewayAction :=
  match mergedMessage p with
  | Except.error e =>
      ({ ok := false, payload := none,
         error := some (errorShape invalidRequestCode e), cached := false }, st, [])
  | Except.ok m =>
      if policyOf cfg p st = PolicyAction.deny then
        ({ ok := false, payload := none,
           error := some (errorShape invalidRequestCode "send blocked by session policy"),
           cached := false },
         registerAgentRunContext p.idempotencyKey p.sessionKey st, [])
      else
        match lookupA st.dedupe (chatKey p.idempotencyKey) with
        | some c =>
            ({ ok := c.ok, payload := some c.payload, error := c.error, cached := true },
             registerAgentRunContext p.idempotencyKey p.sessionKey st, [])
        | none => chatSendRun exec now fresh cfg p st m

/-- Parameters of `chat.abort`. -/
structure ChatAbortParams where
  sessionKey : String
  runId : String
deriving DecidableEq

/-- Payload of the `chat.abort` response: `{ok, aborted}`. -/
structure AbortPayload where
  ok : Bool
  aborted : Bool
deriving DecidableEq

structure ChatAbortResponse where
  ok : Bool
  payload : Option AbortPayload
  error : Option ErrShape
deriving DecidableEq

/-- The `chat.abort` handler, chat.ts lines 83-131: no active run is an
idempotent no-op; a session-key mismatch is INVALID_REQUEST with no action;
otherwise the token is triggered, the run's registry entries are removed, and
an "aborted" chat event with `seq` one past the run's last observed sequence
is broadcast globally and to the session. -/
def chatAbort (p : ChatAbortParams) (st : GatewayState) :
    ChatAbortResponse × GatewayState × List GatewayAction :=
  match lookupA st.chatAbortControllers p.runId with
  | none =>
      ({ ok := true, payload := some { ok := true, aborted := false }, error := none },
       st, [])
  | some active =>
      if active.sessionKey ≠ p.sessionKey then
        ({ ok := false, payload := none,
           error := some (errorShape invalidRequestCode "runId does not match sessionKey") },
         st, [])
      else
        ({ ok := true, payload := some { ok := true, aborted := true }, error := none },
         { st with
            chatAbortControllers := eraseA st.chatAbortControllers p.runId
            chatRunBuffers := eraseA st.chatRunBuffers p.runId
            chatDeltaSentAt := eraseA st.chatDeltaSentAt p.runId
            chatRuns := eraseA st.chatRuns p.runId },
         [GatewayAction.abortToken p.runId,
          GatewayAction.broadcastChat
            { runId := p.runId, sessionKey := p.sessionKey,
              seq := (lookupA st.agentRunSeq p.runId).getD 0 + 1, state := "aborted" },
          GatewayAction.sessionChat p.sessionKey
            { runId := p.runId, sessionKey := p.sessionKey,
              seq := (lookupA st.agentRunSeq p.runId).getD 0 + 1, state := "aborted" }])

/-- Parameters of `chat.history` (already schema-validated; `limit` is a JS
number, embedded as an integer). -/
structure ChatHistoryParams where
  sessionKey : String
  limit : Option Int := none
deriving DecidableEq

/-- Modelled from the spec: `MAX_CHAT_HISTORY_MESSAGES_BYTES` of
`gateway/server-constants.ts` is not part of the snapshot; spec section 4.4
gives the byte cap as 6 MiB. -/
def MAX_CHAT_HISTORY_MESSAGES_BYTES : Nat := 6 * 1024 * 1024

/-- Serialized JSON size of a message window: the two array brackets, each
record's serialized size, and a comma between records. -/
def jsonBytes (msgs : List Msg) : Nat :=
  2 + (msgs.map Msg.bytes).sum + (msgs.length - 1)

/-- Modelled from the spec: `capArrayByJsonBytes` of `gateway/session-utils.ts`
is not part of the snapshot; spec section 4.4: drop the oldest entries until
the serialized size of the remaining set is at most the cap, preserving
chronological order. -/
def capArrayByJsonBytes : List Msg → Nat → List Msg
  | [], _ => []
  | m :: rest, maxBytes =>
      if jsonBytes (m :: rest) ≤ maxBytes then m :: rest
      else capArrayByJsonBytes rest maxBytes

/-- One-argument `Array.prototype.slice` applied as `messages.slice(-maxv)`,
chat.ts line 55, with JS index semantics: a negative effective start counts
from the end (clamped at 0), a non-negative one from the front (clamped at the
length); `-0` is `0`. -/
def jsSliceNegArg (l : List Msg) (maxv : Int) : List Msg :=
  if (0 : Int) < maxv then l.drop (max ((l.length : Int) - maxv) 0).toNat
  else l.drop (min (-maxv) (l.length : Int)).toNat

/-- The count-capped window of `chat.history`, chat.ts lines 50-55:
`requested = limit ?? 200`, `max = Math.min(1000, requested)`, slice the last
`max` messages only when more are stored. -/
def chatHistoryWindow (rawMessages : List Msg) (limit : Option Int) : List Msg :=
  if (rawMessages.length : Int) > min 1000 (limit.getD 200) then
    jsSliceNegArg rawMessages (min 1000 (limit.getD 200))
  else rawMessages

/-- The returned message list of `chat.history`: the count-capped window then
the byte cap, chat.ts lines 50-59. -/
def chatHistoryMessages (rawMessages : List Msg) (limit : Option Int) : List Msg :=
  capArrayByJsonBytes (chatHistoryWindow rawMessages limit)
    MAX_CHAT_HISTORY_MESSAGES_BYTES

/-- The raw transcript loaded for the request, chat.ts lines 46-49: the
session entry's transcript when it has a `sessionId`, else the empty list. -/
def rawMessagesOf (st : GatewayState) (p : ChatHistoryParams) : List Msg :=
  match (lookupA st.store p.sessionKey).map SessionEntry.sessionId with
  | some sid => (lookupA st.transcripts sid).getD []
  | none => []

structure ChatHistoryResponse where
  ok : Bool
  sessionKey : String
  sessionId : Option String
  messages : List Msg
  thinkingLevel : Option String
deriving DecidableEq

/-- The `chat.history` handler, chat.ts lines 30-82.  The thinking-level
resolution falls back from the stored entry to the configured default to the
model-catalog default (`resolveThinkingDefault`, an external collaborator,
enters as the parameter `catalogDefault`). -/
def chatHistory (cfg : Cfg) (catalogDefault : String) (p : ChatHistoryParams)
    (st : GatewayState) : ChatHistoryResponse :=
  { ok := true
    sessionKey := p.sessionKey
    sessionId := (lookupA st.store p.sessionKey).map SessionEntry.sessionId
    messages := chatHistoryMessages (rawMessagesOf st p) p.limit
    thinkingLevel :=
      match (lookupA st.store p.sessionKey).bind SessionEntry.thinkingLevel with
      | some t => some t
      | none =>
          match cfg.thinkingDefault with
          | some t => some t
          | none => some catalogDefault }

/-- Sequential processing of a list of `chat.send` requests (retries of the
same idempotency key among them), threading the gateway state and
concatenating the effect traces: the request/response pairs, the combined
trace, and the final state. -/
def runSends (exec : ExecArgs → ExecResult) (now : Nat) (fresh : String) (cfg : Cfg) :
    List ChatSendParams → GatewayState →
      List (ChatSendParams × ChatSendResponse) × List GatewayAction × GatewayState
  | [], st => ([], [], st)
  | p :: rest, st =>
      ((p, (chatSend exec now fresh cfg p st).1) ::
          (runSends exec now fresh cfg rest (chatSend exec now fresh cfg p st).2.1).1,
        (chatSend exec now fresh cfg p st).2.2 ++
          (runSends exec now fresh cfg rest (chatSend exec now fresh cfg p st).2.1).2.1,
        (runSends exec now fresh cfg rest (chatSend exec now fresh cfg p st).2.1).2.2)

/-- How many times a trace invokes the executor for the run `k`. -/
def execInvocations (tr : List GatewayAction) (k : String) : Nat :=
  (tr.filter fun a =>
    match a with
    | GatewayAction.invokeExecutor args => args.runId == k
    | _ => false).length

/-- The spec's bound on the history `limit` parameter under which its count
formula is stated (the amendment of C4 restricts to positive limits). -/
def limitOkB : Option Int → Bool
  | none => true
  | some L => decide (1 ≤ L)

/-! Concrete fixtures used by witnesses and counterexamples. -/

def emptyState : GatewayState :=
  { dedupe := [], chatAbortControllers := [], chatRunBuffers := [],
    chatDeltaSentAt := [], chatRuns := [], agentRunSeq := [], runContexts := [],
    store := [], transcripts := [] }

def execAlwaysOk : ExecArgs → ExecResult := fun _ => ExecResult.success

def cfg0 : Cfg := { agentTimeoutMs := 30000 }

def denyAllPolicy : SendPolicy := { dflt := PolicyAction.deny, rules := [] }

/-- A session entry whose own send-policy override denies everything. -/
def deniedEntry : SessionEntry :=
  { sessionId := "sid-b", updatedAt := 0, sendPolicy := some denyAllPolicy }

def stDeny : GatewayState := { emptyState with store := [("blocked", deniedEntry)] }

/-- Attachment content one byte over the 5,000,000-byte cap. -/
def bigContent : String := String.mk (List.replicate 5000001 'x')

def bigAttachment : AttachmentIn := { content := some (AttachContentIn.text bigContent) }

/-- A `chat.send` request whose attachments exceed the size cap, targeting the
policy-denied session. -/
def pBig : ChatSendParams :=
  { sessionKey := "blocked", message := "", attachments := some [bigAttachment],
    idempotencyKey := "kbig" }

/-- A plain `chat.send` request to the policy-denied session. -/
def pDeny : ChatSendParams :=
  { sessionKey := "blocked", message := "hello", idempotencyKey := "kd" }

/-- The live-run record of run r1 owned by session "main". -/
def aMain : ChatAbortEntry := { sessionId := "sid1", sessionKey := "main" }

/-- A state with one live run r1 (buffers, timestamps, queue entry, sequence
counter 4). -/
def stAbort : GatewayState :=
  { emptyState with
    chatAbortControllers := [("r1", aMain)],
    chatRunBuffers := [("r1", ["delta"])],
    chatDeltaSentAt := [("r1", 7)],
    chatRuns := [("r1", { sessionKey := "main", clientRunId := "r1" })],
    agentRunSeq := [("r1", 4)] }

/-- A session entry with a previously recorded delivery route. -/
def enRoute : SessionEntry :=
  { sessionId := "sess-main", updatedAt := 0, lastProvider := some "whatsapp",
    lastTo := some "+1555" }

def stRoute : GatewayState := { emptyState with store := [("main", enRoute)] }

/-- A `chat.send` to the session holding the recorded route. -/
def pRoute : ChatSendParams :=
  { sessionKey := "main", message := "hello", idempotencyKey := "idem-route" }

/-- A cached terminal result for idempotency key "kc". -/
def cachedEntry : DedupEntry :=
  { ts := 3, ok := true,
    payload := { runId := "kc", status := "ok", summary := none }, error := none }

def stCached : GatewayState :=
  { emptyState with dedupe := [(chatKey "kc", cachedEntry)] }

def pCached : ChatSendParams :=
  { sessionKey := "main", message := "hi", idempotencyKey := "kc" }

/-- The cached key retried on the policy-denied session. -/
def stCachedDeny : GatewayState :=
  { emptyState with
    dedupe := [(chatKey "kc", cachedEntry)],
    store := [("blocked", deniedEntry)] }

def pCachedDeny : ChatSendParams :=
  { sessionKey := "blocked", message := "hi", idempotencyKey := "kc" }

/-- A six-message transcript. -/
def msgs6 : List Msg := [⟨1, 0⟩, ⟨1, 1⟩, ⟨1, 2⟩, ⟨1, 3⟩, ⟨1, 4⟩, ⟨1, 5⟩]

def enHist : SessionEntry := { sessionId := "s6", updatedAt := 0 }

def stHist : GatewayState :=
  { emptyState with store := [("main", enHist)], transcripts := [("s6", msgs6)] }

def pHist : ChatHistoryParams := { sessionKey := "main", limit := some 5 }

/-- A one-message transcript for the `limit = 0` counterexample. -/
def enHist1 : SessionEntry := { sessionId := "s1", updatedAt := 0 }

def stHist1 : GatewayState :=
  { emptyState with store := [("m1", enHist1)], transcripts := [("s1", [⟨5, 0⟩])] }

def pHist0 : ChatHistoryParams := { sessionKey := "m1", limit := some 0 }

/-! Association-list lemmas standing for the `Map` laws the handlers rely
on. -/

theorem lookupA_insertA_self {α : Type} (l : List (String × α)) (k : String) (v : α) :
    lookupA (insertA l k v) k = some v := by
  induction l with
  | nil => simp [insertA, lookupA]
  | cons q l ih =>
    by_cases h : q.fst = k
    · simp [insertA, h, lookupA]
    · simp [insertA, h, lookupA, ih]

theorem lookupA_insertA_ne {α : Type} (l : List (String × α)) (k kk : String) (v : α)
    (h : kk ≠ k) : lookupA (insertA l k v) kk = lookupA l kk := by
  induction l with
  | nil => simp [insertA, lookupA, Ne.symm h]
  | cons q l ih =>
    by_cases hq : q.fst = k
    · simp [insertA, hq, lookupA, Ne.symm h]
    · simp [insertA, hq, lookupA, ih]

theorem lookupA_eraseA_self {α : Type} (l : List (String × α)) (k : String) :
    lookupA (eraseA l k) k = none := by
  induction l with
  | nil => simp [eraseA, lookupA]
  | cons q l ih =>
    by_cases h : q.fst = k
    · simp [eraseA, h, ih]
    · simp [eraseA, h, lookupA, ih]

theorem lookupA_eraseA_ne {α : Type} (l : List (String × α)) (k kk : String)
    (h : kk ≠ k) : lookupA (eraseA l k) kk = lookupA l kk := by
  induction l with
  | nil => simp [eraseA]
  | cons q l ih =>
    by_cases hq : q.fst = k
    · simp [eraseA, hq, lookupA, Ne.symm h, ih]
    · simp [eraseA, hq, lookupA, ih]

theorem string_app_cancel {s t u : String} (h : s ++ t = s ++ u) : t = u := by
  cases t with | mk td =>
  cases u with | mk ud =>
  have h2 := congrArg String.data h
  simp [String.data_append] at h2
  exact congrArg String.mk h2

theorem chatKey_inj {a b : String} (h : chatKey a = chatKey b) : a = b :=
  string_app_cancel h

/-! Branch characterizations of `chatSend`, one per early return of the
source. -/

theorem chatSend_merged_error (exec : ExecArgs → ExecResult) (now : Nat)
    (fresh : String) (cfg : Cfg) (p : ChatSendParams) (st : GatewayState)
    (e : String) (h : mergedMessage p = Except.error e) :
    chatSend exec now fresh cfg p st =
      ({ ok := false, payload := none,
         error := some (errorShape invalidRequestCode e), cached := false }, st, []) := by
  unfold chatSend
  rw [h]

theorem chatSend_deny (exec : ExecArgs → ExecResult) (now : Nat)
    (fresh : String) (cfg : Cfg) (p : ChatSendParams) (st : GatewayState)
    (m : String) (hm : mergedMessage p = Except.ok m)
    (hd : policyOf cfg p st = PolicyAction.deny) :
    chatSend exec now fresh cfg p st =
      ({ ok := false, payload := none,
         error := some (errorShape invalidRequestCode "send blocked by session policy"),
         cached := false },
       registerAgentRunContext p.idempotencyKey p.sessionKey st, []) := by
  unfold chatSend
  rw [hm]
  simp [hd]

theorem chatSend_cached (exec : ExecArgs → ExecResult) (now : Nat)
    (fresh : String) (cfg : Cfg) (p : ChatSendParams) (st : GatewayState)
    (m : String) (c : DedupEntry) (hm : mergedMessage p = Except.ok m)
    (hd : policyOf cfg p st ≠ PolicyAction.deny)
    (hc : lookupA st.dedupe (chatKey p.idempotencyKey) = some c) :
    chatSend exec now fresh cfg p st =
      ({ ok := c.ok, payload := some c.payload, error := c.error, cached := true },
       registerAgentRunContext p.idempotencyKey p.sessionKey st, []) := by
  unfold chatSend
  rw [hm]
  simp [hd, hc]

theorem chatSend_miss (exec : ExecArgs → ExecResult) (now : Nat)
    (fresh : String) (cfg : Cfg) (p : ChatSendParams) (st : GatewayState)
    (m : String) (hm : mergedMessage p = Except.ok m)
    (hd : policyOf cfg p st ≠ PolicyAction.deny)
    (hc : lookupA st.dedupe (chatKey p.idempotencyKey) = none) :
    chatSend exec now fresh cfg p st = chatSendRun exec now fresh cfg p st m := by
  unfold chatSend
  rw [hm]
  simp [hd, hc]

/-- An `isOkE` hypothesis yields the `Except.ok` witness. -/
theorem isOkE_exists {ε α : Type} {x : Except ε α} (h : isOkE x = true) :
    ∃ m, x = Except.ok m := by
  cases x with
  | ok m => exact ⟨m, rfl⟩
  | error e => simp [isOkE] at h

/-! Branch characterizations of `chatAbort`. -/

theorem chatAbort_none_eq (st : GatewayState) (p : ChatAbortParams)
    (h : lookupA st.chatAbortControllers p.runId = none) :
    chatAbort p st =
      ({ ok := true, payload := some { ok := true, aborted := false }, error := none },
       st, []) := by
  unfold chatAbort
  rw [h]

theorem chatAbort_mismatch_eq (st : GatewayState) (p : ChatAbortParams)
    (a : ChatAbortEntry) (h : lookupA st.chatAbortControllers p.runId = some a)
    (hne : a.sessionKey ≠ p.sessionKey) :
    chatAbort p st =
      ({ ok := false, payload := none,
         error := some (errorShape invalidRequestCode "runId does not match sessionKey") },
       st, []) := by
  unfold chatAbort
  rw [h]
  simp [hne]

theorem chatAbort_active_eq (st : GatewayState) (p : ChatAbortParams)
    (a : ChatAbortEntry) (h : lookupA st.chatAbortControllers p.runId = some a)
    (hk : a.sessionKey = p.sessionKey) :
    chatAbort p st =
      ({ ok := true, payload := some { ok := true, aborted := true }, error := none },
       { st with
          chatAbortControllers := eraseA st.chatAbortControllers p.runId
          chatRunBuffers := eraseA st.chatRunBuffers p.runId
          chatDeltaSentAt := eraseA st.chatDeltaSentAt p.runId
          chatRuns := eraseA st.chatRuns p.runId },
       [GatewayAction.abortToken p.runId,
        GatewayAction.broadcastChat
          { runId := p.runId, sessionKey := p.sessionKey,
            seq := (lookupA st.agentRunSeq p.runId).getD 0 + 1, state := "aborted" },
        GatewayAction.sessionChat p.sessionKey
          { runId := p.runId, sessionKey := p.sessionKey,
            seq := (lookupA st.agentRunSeq p.runId).getD 0 + 1, state := "aborted" }]) := by
  unfold chatAbort
  rw [h]
  simp [hk]

/-- C2: a `chat.abort` whose `runId` names an active run recorded under the
request's `sessionKey` triggers the run's cancellation token, removes the
cancellation entry, buffered deltas, delta timestamps and queue membership,
broadcasts `{runId, sessionKey, seq, state:"aborted"}` globally and to the
session's observers with `seq` one greater than the run's last observed
sequence number, and responds ok `{aborted:true}`. -/
theorem chat_abort_active_run (st : GatewayState) (p : ChatAbortParams)
    (a : ChatAbortEntry) (h : lookupA st.chatAbortControllers p.runId = some a)
    (hk : a.sessionKey = p.sessionKey) :
    chatAbort p st =
      ({ ok := true, payload := some { ok := true, aborted := true }, error := none },
       { st with
          chatAbortControllers := eraseA st.chatAbortControllers p.runId
          chatRunBuffers := eraseA st.chatRunBuffers p.runId
          chatDeltaSentAt := eraseA st.chatDeltaSentAt p.runId
          chatRuns := eraseA st.chatRuns p.runId },
       [GatewayAction.abortToken p.runId,
        GatewayAction.broadcastChat
          { runId := p.runId, sessionKey := p.sessionKey,
            seq := (lookupA st.agentRunSeq p.runId).getD 0 + 1, state := "aborted" },
        GatewayAction.sessionChat p.sessionKey
          { runId := p.runId, sessionKey := p.sessionKey,
            seq := (lookupA st.agentRunSeq p.runId).getD 0 + 1, state := "aborted" }]) :=
  chatAbort_active_eq st p a h hk

/-- Witness for C2 at a concrete live run with last observed sequence 4. -/
theorem chat_abort_active_run_witness :
    lookupA stAbort.chatAbortControllers "r1" = some aMain ∧
    (chatAbort { sessionKey := "main", runId := "r1" } stAbort).1.payload
      = some { ok := true, aborted := true } ∧
    (chatAbort { sessionKey := "main", runId := "r1" } stAbort).2.2 =
      [GatewayAction.abortToken "r1",
       GatewayAction.broadcastChat
         { runId := "r1", sessionKey := "main", seq := 5, state := "aborted" },
       GatewayAction.sessionChat "main"
         { runId := "r1", sessionKey := "main", seq := 5, state := "aborted" }] := by
  have e := chat_abort_active_run stAbort { sessionKey := "main", runId := "r1" }
    aMain rfl rfl
  refine ⟨rfl, ?_, ?_⟩
  · rw [e]
  · rw [e]
    rfl

/-- C3: a `chat.abort` naming an active run whose recorded `sessionKey`
differs from the request's responds INVALID_REQUEST with message "runId does
not match sessionKey" and takes no action: the state is unchanged and the
trace is empty, so the token is not triggered, nothing is removed and nothing
is broadcast. -/
theorem chat_abort_mismatch_rejected (st : GatewayState) (p : ChatAbortParams)
    (a : ChatAbortEntry) (h : lookupA st.chatAbortControllers p.runId = some a)
    (hne : a.sessionKey ≠ p.sessionKey) :
    chatAbort p st =
      ({ ok := false, payload := none,
         error := some (errorShape invalidRequestCode "runId does not match sessionKey") },
       st, []) :=
  chatAbort_mismatch_eq st p a h hne

/-- Witness for C3: aborting run r1 (owned by "main") with sessionKey
"other". -/
theorem chat_abort_mismatch_rejected_witness :
    lookupA stAbort.chatAbortControllers "r1" = some aMain ∧
    chatAbort { sessionKey := "other", runId := "r1" } stAbort =
      ({ ok := false, payload := none,
         error := some (errorShape invalidRequestCode "runId does not match sessionKey") },
       stAbort, []) :=
  ⟨rfl,
   chat_abort_mismatch_rejected stAbort { sessionKey := "other", runId := "r1" } aMain rfl
     (by decide)⟩

/-- C8: a `chat.abort` whose `runId` has no active run record responds ok
`{aborted:false}` with no state change and no broadcast — an idempotent
no-op covering unknown and already-completed runs — and a live run returns
`{aborted:true}` exactly once: aborting it again immediately yields
`{aborted:false}`. -/
theorem chat_abort_unknown_noop (st : GatewayState) (p : ChatAbortParams)
    (h : lookupA st.chatAbortControllers p.runId = none) :
    chatAbort p st =
      ({ ok := true, payload := some { ok := true, aborted := false }, error := none },
       st, []) ∧
    (∀ (st2 : GatewayState) (p2 : ChatAbortParams) (a : ChatAbortEntry),
      lookupA st2.chatAbortControllers p2.runId = some a →
      a.sessionKey = p2.sessionKey →
      (chatAbort p2 st2).1.payload = some { ok := true, aborted := true } ∧
      (chatAbort p2 (chatAbort p2 st2).2.1).1.payload
        = some { ok := true, aborted := false }) := by
  refine ⟨chatAbort_none_eq st p h, ?_⟩
  intro st2 p2 a h2 hk2
  rw [chatAbort_active_eq st2 p2 a h2 hk2]
  refine ⟨rfl, ?_⟩
  rw [chatAbort_none_eq _ p2 (lookupA_eraseA_self st2.chatAbortControllers p2.runId)]

/-- Witness for C8 at the unknown run id "missing-run" on the empty
registry. -/
theorem chat_abort_unknown_noop_witness :
    lookupA emptyState.chatAbortControllers "missing-run" = none ∧
    chatAbort { sessionKey := "main", runId := "missing-run" } emptyState =
      ({ ok := true, payload := some { ok := true, aborted := false }, error := none },
       emptyState, []) :=
  ⟨rfl, (chat_abort_unknown_noop emptyState { sessionKey := "main", runId := "missing-run" }
    rfl).1⟩

/-! Facts about the oversized attachment fixture. -/

theorem strlen_mk_replicate (n : Nat) (c : Char) :
    (String.mk (List.replicate n c)).length = n :=
  List.length_replicate n c

theorem bigContent_length : bigContent.length = 5000001 := by
  unfold bigContent
  exact strlen_mk_replicate 5000001 'x'

theorem pBig_size :
    pBig.message.length +
      ((normAtts pBig).map fun a => (a.content.getD "").length).sum > 5000000 := by
  have e1 : ((normAtts pBig).map fun a => (a.content.getD "").length)
      = [bigContent.length] := rfl
  have e3 : ((normAtts pBig).map fun a => (a.content.getD "").length)
      = [5000001] := by rw [e1, bigContent_length]
  rw [e3]
  decide

theorem pBig_merged :
    mergedMessage pBig = Except.error "attachment payload exceeds size limit" := by
  unfold mergedMessage
  rw [if_pos (show (normAtts pBig).length > 0 by decide)]
  unfold buildMessageWithAttachments
  rw [if_pos pBig_size]

/-- C7: a `chat.send` request with attachments merges them through the
transform capped at 5,000,000 bytes, and when the cap is exceeded the whole
request fails with INVALID_REQUEST before any state change: the returned
state is the input state unchanged (no session entry written, no run context
registered, no run record or cancellation entry created) and the trace is
empty (executor not invoked, store not saved). -/
theorem chat_send_attachment_cap (exec : ExecArgs → ExecResult) (now : Nat)
    (fresh : String) (cfg : Cfg) (p : ChatSendParams) (st : GatewayState) (e : String)
    (hatt : (normAtts p).length > 0)
    (herr : mergedMessage p = Except.error e) :
    mergedMessage p = buildMessageWithAttachments p.message (normAtts p) 5000000 ∧
    p.message.length + ((normAtts p).map fun a => (a.content.getD "").length).sum
      > 5000000 ∧
    chatSend exec now fresh cfg p st =
      ({ ok := false, payload := none,
         error := some (errorShape invalidRequestCode e), cached := false }, st, []) := by
  have hme : mergedMessage p = buildMessageWithAttachments p.message (normAtts p) 5000000 := by
    unfold mergedMessage
    rw [if_pos hatt]
  refine ⟨hme, ?_, chatSend_merged_error exec now fresh cfg p st e herr⟩
  have h2 : buildMessageWithAttachments p.message (normAtts p) 5000000
      = Except.error e := by rw [← hme, herr]
  by_cases hgt : p.message.length +
      ((normAtts p).map fun a => (a.content.getD "").length).sum > 5000000
  · exact hgt
  · unfold buildMessageWithAttachments at h2
    rw [if_neg hgt] at h2
    simp at h2

/-- Witness for C7: the over-cap attachment request `pBig` fails with
INVALID_REQUEST leaving the empty state untouched and an empty trace. -/
theorem chat_send_attachment_cap_witness :
    (normAtts pBig).length > 0 ∧
    mergedMessage pBig = Except.error "attachment payload exceeds size limit" ∧
    chatSend execAlwaysOk 0 "fresh" cfg0 pBig emptyState =
      ({ ok := false, payload := none,
         error := some (errorShape invalidRequestCode
           "attachment payload exceeds size limit"), cached := false },
       emptyState, []) :=
  ⟨by decide, pBig_merged,
   (chat_send_attachment_cap execAlwaysOk 0 "fresh" cfg0 pBig emptyState
     "attachment payload exceeds size limit" (by decide) pBig_merged).2.2⟩

/-- C5 (amended): a `chat.send` request that passes the attachment step, on a
session whose send policy evaluates to deny, responds INVALID_REQUEST with
message "send blocked by session policy"; the session store is untouched and
the trace is empty, so the executor is never invoked and nothing is
persisted. -/
theorem chat_send_policy_blocked (exec : ExecArgs → ExecResult) (now : Nat)
    (fresh : String) (cfg : Cfg) (p : ChatSendParams) (st : GatewayState) (m : String)
    (hm : mergedMessage p = Except.ok m)
    (hd : policyOf cfg p st = PolicyAction.deny) :
    chatSend exec now fresh cfg p st =
      ({ ok := false, payload := none,
         error := some (errorShape invalidRequestCode "send blocked by session policy"),
         cached := false },
       registerAgentRunContext p.idempotencyKey p.sessionKey st, []) ∧
    (chatSend exec now fresh cfg p st).2.1.store = st.store ∧
    (chatSend exec now fresh cfg p st).2.2 = [] := by
  have e := chatSend_deny exec now fresh cfg p st m hm hd
  refine ⟨e, ?_, ?_⟩
  · rw [e]
    rfl
  · rw [e]

/-- Witness for C5 on a session whose stored entry carries a deny-all policy
override. -/
theorem chat_send_policy_blocked_witness :
    mergedMessage pDeny = Except.ok "hello" ∧
    policyOf cfg0 pDeny stDeny = PolicyAction.deny ∧
    chatSend execAlwaysOk 0 "fresh" cfg0 pDeny stDeny =
      ({ ok := false, payload := none,
         error := some (errorShape invalidRequestCode "send blocked by session policy"),
         cached := false },
       registerAgentRunContext pDeny.idempotencyKey pDeny.sessionKey stDeny, []) :=
  ⟨rfl, by decide,
   (chat_send_policy_blocked execAlwaysOk 0 "fresh" cfg0 pDeny stDeny
     "hello" rfl (by decide)).1⟩

/-- C5 counterexample: on the policy-denied session, a request whose
attachments exceed the cap is rejected with the attachment error message, not
with "send blocked by session policy" — the attachment step precedes the
policy gate, so the claim's universally stated response message fails. -/
theorem chat_send_policy_blocked_cex :
    policyOf cfg0 pBig stDeny = PolicyAction.deny ∧
    (chatSend execAlwaysOk 0 "fresh" cfg0 pBig stDeny).1.error
      = some (errorShape invalidRequestCode "attachment payload exceeds size limit") ∧
    errorShape invalidRequestCode "attachment payload exceeds size limit"
      ≠ errorShape invalidRequestCode "send blocked by session policy" := by
  refine ⟨by decide, ?_, by decide⟩
  rw [chatSend_merged_error execAlwaysOk 0 "fresh" cfg0 pBig stDeny _ pBig_merged]

/-- C6: a `chat.send` on a session whose existing entry has `lastProvider`
and `lastTo` set leaves both unchanged: the final store's entry for the
session still carries them, and whenever the executor is invoked the trace
starts with a store save (persisted before the invocation) whose entry for
the session also carries them. -/
theorem chat_send_no_clobber (exec : ExecArgs → ExecResult) (now : Nat)
    (fresh : String) (cfg : Cfg) (p : ChatSendParams) (st : GatewayState)
    (en : SessionEntry) (lp lt : String)
    (hen : lookupA st.store p.sessionKey = some en)
    (hlp : en.lastProvider = some lp)
    (hlt : en.lastTo = some lt) :
    (∃ en2, lookupA (chatSend exec now fresh cfg p st).2.1.store p.sessionKey = some en2 ∧
       en2.lastProvider = some lp ∧ en2.lastTo = some lt) ∧
    ((chatSend exec now fresh cfg p st).2.2 = [] ∨
     ∃ s args rest,
       (chatSend exec now fresh cfg p st).2.2
         = GatewayAction.saveStore s :: GatewayAction.invokeExecutor args :: rest ∧
       ∃ en3, lookupA s p.sessionKey = some en3 ∧
         en3.lastProvider = some lp ∧ en3.lastTo = some lt) := by
  cases hm : mergedMessage p with
  | error e =>
    rw [chatSend_merged_error exec now fresh cfg p st e hm]
    exact ⟨⟨en, hen, hlp, hlt⟩, Or.inl rfl⟩
  | ok m =>
    by_cases hd : policyOf cfg p st = PolicyAction.deny
    · rw [chatSend_deny exec now fresh cfg p st m hm hd]
      exact ⟨⟨en, hen, hlp, hlt⟩, Or.inl rfl⟩
    · cases hc : lookupA st.dedupe (chatKey p.idempotencyKey) with
      | some c =>
        rw [chatSend_cached exec now fresh cfg p st m c hm hd hc]
        exact ⟨⟨en, hen, hlp, hlt⟩, Or.inl rfl⟩
      | none =>
        rw [chatSend_miss exec now fresh cfg p st m hm hd hc]
        have hstore : lookupA (runStoreAfter now fresh p st) p.sessionKey
            = some (sessionEntryFor now (sessionIdOf fresh st p)
                (lookupA st.store p.sessionKey)) :=
          lookupA_insertA_self _ _ _
        have hfp : (sessionEntryFor now (sessionIdOf fresh st p)
            (lookupA st.store p.sessionKey)).lastProvider = some lp := by
          simp [sessionEntryFor, hen, hlp]
        have hft : (sessionEntryFor now (sessionIdOf fresh st p)
            (lookupA st.store p.sessionKey)).lastTo = some lt := by
          simp [sessionEntryFor, hen, hlt]
        refine ⟨⟨sessionEntryFor now (sessionIdOf fresh st p)
            (lookupA st.store p.sessionKey), hstore, hfp, hft⟩, Or.inr ?_⟩
        refine ⟨runStoreAfter now fresh p st,
          execArgsFor cfg p m (sessionIdOf fresh st p),
          [GatewayAction.cacheWrite (chatKey p.idempotencyKey)
            (terminalEntryFor exec now fresh cfg p st m)], rfl, ?_⟩
        exact ⟨sessionEntryFor now (sessionIdOf fresh st p)
            (lookupA st.store p.sessionKey), hstore, hfp, hft⟩

/-- Witness for C6: a session with `lastProvider = "whatsapp"` and
`lastTo = "+1555"` keeps both through a successful `chat.send`. -/
theorem chat_send_no_clobber_witness :
    lookupA stRoute.store "main" = some enRoute ∧
    enRoute.lastProvider = some "whatsapp" ∧ enRoute.lastTo = some "+1555" ∧
    (∃ en2, lookupA (chatSend execAlwaysOk 5 "fresh" cfg0 pRoute stRoute).2.1.store
        "main" = some en2 ∧
      en2.lastProvider = some "whatsapp" ∧ en2.lastTo = some "+1555") :=
  ⟨rfl, rfl, rfl,
   (chat_send_no_clobber execAlwaysOk 5 "fresh" cfg0 pRoute stRoute enRoute
     "whatsapp" "+1555" rfl rfl rfl).1⟩

/-! Lemmas on the byte cap. -/

theorem capArrayByJsonBytes_le (items : List Msg) (maxBytes : Nat) (h : 2 ≤ maxBytes) :
    jsonBytes (capArrayByJsonBytes items maxBytes) ≤ maxBytes := by
  induction items with
  | nil => simpa [capArrayByJsonBytes, jsonBytes] using h
  | cons m rest ih =>
    unfold capArrayByJsonBytes
    by_cases hc : jsonBytes (m :: rest) ≤ maxBytes
    · rw [if_pos hc]
      exact hc
    · rw [if_neg hc]
      exact ih

theorem capArrayByJsonBytes_drop (items : List Msg) (maxBytes : Nat) :
    ∃ n, capArrayByJsonBytes items maxBytes = items.drop n := by
  induction items with
  | nil => exact ⟨0, rfl⟩
  | cons m rest ih =>
    unfold capArrayByJsonBytes
    by_cases hc : jsonBytes (m :: rest) ≤ maxBytes
    · rw [if_pos hc]
      exact ⟨0, rfl⟩
    · rw [if_neg hc]
      obtain ⟨n, hn⟩ := ih
      exact ⟨n + 1, by simpa using hn⟩

/-- C9: every `chat.history` response's message list serializes to at most
6 MiB, and it is a suffix of the count-capped window — the oldest entries of
the window are dropped first and the survivors keep their chronological
order. -/
theorem chat_history_byte_cap (cfg : Cfg) (catalogDefault : String)
    (p : ChatHistoryParams) (st : GatewayState) :
    jsonBytes (chatHistory cfg catalogDefault p st).messages
      ≤ MAX_CHAT_HISTORY_MESSAGES_BYTES ∧
    ∃ n, (chatHistory cfg catalogDefault p st).messages
      = (chatHistoryWindow (rawMessagesOf st p) p.limit).drop n := by
  constructor
  · exact capArrayByJsonBytes_le (chatHistoryWindow (rawMessagesOf st p) p.limit)
      MAX_CHAT_HISTORY_MESSAGES_BYTES (by decide)
  · exact capArrayByJsonBytes_drop (chatHistoryWindow (rawMessagesOf st p) p.limit)
      MAX_CHAT_HISTORY_MESSAGES_BYTES

/-- C4 (amended): for a session entry with a stored transcript of N messages
and an integer `limit` that is at least 1 when present, the count-capped
window of `chat.history` holds exactly `min N (min 1000 (limit ?? 200))`
messages, namely the most recent ones in their original order, and the
response's messages are that window after the byte cap. -/
theorem chat_history_count_cap (cfg : Cfg) (catalogDefault : String)
    (p : ChatHistoryParams) (st : GatewayState) (en : SessionEntry) (raw : List Msg)
    (hen : lookupA st.store p.sessionKey = some en)
    (hraw : lookupA st.transcripts en.sessionId = some raw)
    (hlim : limitOkB p.limit = true) :
    (chatHistoryWindow raw p.limit).length
      = min raw.length (min 1000 (p.limit.getD 200)).toNat ∧
    chatHistoryWindow raw p.limit
      = raw.drop (raw.length - (min 1000 (p.limit.getD 200)).toNat) ∧
    (chatHistory cfg catalogDefault p st).messages
      = capArrayByJsonBytes (chatHistoryWindow raw p.limit)
          MAX_CHAT_HISTORY_MESSAGES_BYTES := by
  have heff : (1 : Int) ≤ min 1000 (p.limit.getD 200) := by
    cases hl : p.limit with
    | none => decide
    | some L =>
      have h1 : (1 : Int) ≤ L := by
        have := hlim
        rw [hl] at this
        simpa [limitOkB] using this
      simp only [Option.getD_some]
      omega
  have hwin : chatHistoryWindow raw p.limit
      = raw.drop (raw.length - (min 1000 (p.limit.getD 200)).toNat) := by
    unfold chatHistoryWindow
    by_cases hgt : (raw.length : Int) > min 1000 (p.limit.getD 200)
    · rw [if_pos hgt]
      unfold jsSliceNegArg
      rw [if_pos (by omega : (0 : Int) < min 1000 (p.limit.getD 200))]
      congr 1
      omega
    · rw [if_neg hgt]
      have h0 : raw.length - (min 1000 (p.limit.getD 200)).toNat = 0 := by omega
      rw [h0, List.drop_zero]
  refine ⟨?_, hwin, ?_⟩
  · rw [hwin, List.length_drop]
    omega
  · have hrm : rawMessagesOf st p = raw := by
      unfold rawMessagesOf
      rw [hen]
      simp [hraw]
    show chatHistoryMessages (rawMessagesOf st p) p.limit = _
    rw [hrm]
    rfl

/-- Witness for C4 at six stored messages and limit 5: the window is the last
five messages. -/
theorem chat_history_count_cap_witness :
    lookupA stHist.store "main" = some enHist ∧
    lookupA stHist.transcripts "s6" = some msgs6 ∧
    limitOkB pHist.limit = true ∧
    (chatHistoryWindow msgs6 pHist.limit).length
      = min msgs6.length (min 1000 (pHist.limit.getD 200)).toNat ∧
    chatHistoryWindow msgs6 pHist.limit
      = msgs6.drop (msgs6.length - (min 1000 (pHist.limit.getD 200)).toNat) :=
  ⟨rfl, rfl, rfl,
   (chat_history_count_cap cfg0 "low" pHist stHist enHist msgs6 rfl rfl rfl).1,
   (chat_history_count_cap cfg0 "low" pHist stHist enHist msgs6 rfl rfl rfl).2.1⟩

/-- C4 counterexample: with one stored message and `limit = 0`, the handler
returns that one message — `messages.slice(-0)` is `slice(0)`, the whole
transcript — while the claim's formula `min(N, min(1000, L ?? 200))` gives
0. -/
theorem chat_history_count_cap_cex :
    (chatHistory cfg0 "low" pHist0 stHist1).messages.length = 1 ∧
    (min ((1 : Int)) (min 1000 (pHist0.limit.getD 200))).toNat = 0 ∧
    (chatHistory cfg0 "low" pHist0 stHist1).messages.length
      ≠ (min ((1 : Int)) (min 1000 (pHist0.limit.getD 200))).toNat := by
  refine ⟨?_, by decide, ?_⟩ <;> decide

/-! Single-step facts about `chatSend` used by the sequential-replay
invariant: dedup entries are never overwritten, a request with a different
key neither touches this key's entry nor invokes the executor for it, and a
same-key request either returns early or performs the one executor invocation
and the one cache write of its run. -/

theorem chatSend_dedupe_preserved (exec : ExecArgs → ExecResult) (now : Nat)
    (fresh : String) (cfg : Cfg) (p : ChatSendParams) (st : GatewayState)
    (kk : String) (v : DedupEntry) (h : lookupA st.dedupe kk = some v) :
    lookupA (chatSend exec now fresh cfg p st).2.1.dedupe kk = some v := by
  cases hm : mergedMessage p with
  | error e =>
    rw [chatSend_merged_error exec now fresh cfg p st e hm]
    exact h
  | ok m =>
    by_cases hd : policyOf cfg p st = PolicyAction.deny
    · rw [chatSend_deny exec now fresh cfg p st m hm hd]
      exact h
    · cases hc : lookupA st.dedupe (chatKey p.idempotencyKey) with
      | some c =>
        rw [chatSend_cached exec now fresh cfg p st m c hm hd hc]
        exact h
      | none =>
        rw [chatSend_miss exec now fresh cfg p st m hm hd hc]
        have hne : kk ≠ chatKey p.idempotencyKey := by
          intro he
          rw [he, hc] at h
          exact Option.noConfusion h
        show lookupA (insertA st.dedupe (chatKey p.idempotencyKey)
          (terminalEntryFor exec now fresh cfg p st m)) kk = some v
        rw [lookupA_insertA_ne _ _ _ _ hne]
        exact h

theorem chatSend_other_key (exec : ExecArgs → ExecResult) (now : Nat)
    (fresh : String) (cfg : Cfg) (p : ChatSendParams) (st : GatewayState)
    (k : String) (hne : p.idempotencyKey ≠ k) :
    execInvocations (chatSend exec now fresh cfg p st).2.2 k = 0 ∧
    lookupA (chatSend exec now fresh cfg p st).2.1.dedupe (chatKey k)
      = lookupA st.dedupe (chatKey k) := by
  cases hm : mergedMessage p with
  | error e =>
    rw [chatSend_merged_error exec now fresh cfg p st e hm]
    exact ⟨rfl, rfl⟩
  | ok m =>
    by_cases hd : policyOf cfg p st = PolicyAction.deny
    · rw [chatSend_deny exec now fresh cfg p st m hm hd]
      exact ⟨rfl, rfl⟩
    · cases hc : lookupA st.dedupe (chatKey p.idempotencyKey) with
      | some c =>
        rw [chatSend_cached exec now fresh cfg p st m c hm hd hc]
        exact ⟨rfl, rfl⟩
      | none =>
        rw [chatSend_miss exec now fresh cfg p st m hm hd hc]
        constructor
        · simp [execInvocations, chatSendRun, execArgsFor, hne]
        · show lookupA (insertA st.dedupe (chatKey p.idempotencyKey)
            (terminalEntryFor exec now fresh cfg p st m)) (chatKey k)
            = lookupA st.dedupe (chatKey k)
          exact lookupA_insertA_ne _ _ _ _ (fun he => hne (chatKey_inj he).symm)

theorem chatSend_same_key_cached (exec : ExecArgs → ExecResult) (now : Nat)
    (fresh : String) (cfg : Cfg) (p : ChatSendParams) (st : GatewayState)
    (c : DedupEntry)
    (hc : lookupA st.dedupe (chatKey p.idempotencyKey) = some c) :
    (chatSend exec now fresh cfg p st).2.2 = [] ∧
    (chatSend exec now fresh cfg p st).2.1.dedupe = st.dedupe ∧
    (∀ q, (chatSend exec now fresh cfg p st).1.payload = some q → q = c.payload) := by
  cases hm : mergedMessage p with
  | error e =>
    rw [chatSend_merged_error exec now fresh cfg p st e hm]
    refine ⟨rfl, rfl, ?_⟩
    intro q hq
    simp at hq
  | ok m =>
    by_cases hd : policyOf cfg p st = PolicyAction.deny
    · rw [chatSend_deny exec now fresh cfg p st m hm hd]
      refine ⟨rfl, rfl, ?_⟩
      intro q hq
      simp at hq
    · rw [chatSend_cached exec now fresh cfg p st m c hm hd hc]
      refine ⟨rfl, rfl, ?_⟩
      intro q hq
      simp at hq
      exact hq.symm

theorem chatSend_same_key_miss (exec : ExecArgs → ExecResult) (now : Nat)
    (fresh : String) (cfg : Cfg) (p : ChatSendParams) (st : GatewayState)
    (hn : lookupA st.dedupe (chatKey p.idempotencyKey) = none) :
    ((chatSend exec now fresh cfg p st).2.2 = [] ∧
     (chatSend exec now fresh cfg p st).2.1.dedupe = st.dedupe ∧
     (chatSend exec now fresh cfg p st).1.payload = none) ∨
    (∃ de, execInvocations (chatSend exec now fresh cfg p st).2.2 p.idempotencyKey = 1 ∧
      lookupA (chatSend exec now fresh cfg p st).2.1.dedupe (chatKey p.idempotencyKey)
        = some de ∧
      (chatSend exec now fresh cfg p st).1.payload = some de.payload) := by
  cases hm : mergedMessage p with
  | error e =>
    rw [chatSend_merged_error exec now fresh cfg p st e hm]
    exact Or.inl ⟨rfl, rfl, rfl⟩
  | ok m =>
    by_cases hd : policyOf cfg p st = PolicyAction.deny
    · rw [chatSend_deny exec now fresh cfg p st m hm hd]
      exact Or.inl ⟨rfl, rfl, rfl⟩
    · rw [chatSend_miss exec now fresh cfg p st m hm hd hn]
      refine Or.inr ⟨terminalEntryFor exec now fresh cfg p st m, ?_, ?_, rfl⟩
      · simp [execInvocations, chatSendRun, execArgsFor]
      · show lookupA (insertA st.dedupe (chatKey p.idempotencyKey)
          (terminalEntryFor exec now fresh cfg p st m)) (chatKey p.idempotencyKey)
          = some (terminalEntryFor exec now fresh cfg p st m)
        exact lookupA_insertA_self _ _ _

theorem execInvocations_append (t1 t2 : List GatewayAction) (k : String) :
    execInvocations (t1 ++ t2) k = execInvocations t1 k + execInvocations t2 k := by
  simp [execInvocations, List.filter_append]

theorem runSends_cons (exec : ExecArgs → ExecResult) (now : Nat) (fresh : String)
    (cfg : Cfg) (p : ChatSendParams) (rest : List ChatSendParams) (st : GatewayState) :
    runSends exec now fresh cfg (p :: rest) st =
      ((p, (chatSend exec now fresh cfg p st).1) ::
          (runSends exec now fresh cfg rest (chatSend exec now fresh cfg p st).2.1).1,
        (chatSend exec now fresh cfg p st).2.2 ++
          (runSends exec now fresh cfg rest (chatSend exec now fresh cfg p st).2.1).2.1,
        (runSends exec now fresh cfg rest (chatSend exec now fresh cfg p st).2.1).2.2) :=
  rfl

/-- The sequential invariant of the dedup cache for one idempotency key `k`:
when the key is already cached with entry `c`, the whole request sequence
invokes the executor zero times for it, every payload-bearing response for
`k` replays `c.payload`, and the entry survives untouched; when the key is
not yet cached, the sequence invokes the executor at most once for it and
every payload-bearing response for `k` equals the payload of the one entry
cached at the end. -/
theorem runSends_key_facts (exec : ExecArgs → ExecResult) (now : Nat) (fresh : String)
    (cfg : Cfg) (k : String) :
    ∀ (reqs : List ChatSendParams) (st : GatewayState),
    ((∀ c, lookupA st.dedupe (chatKey k) = some c →
      lookupA (runSends exec now fresh cfg reqs st).2.2.dedupe (chatKey k) = some c ∧
      execInvocations (runSends exec now fresh cfg reqs st).2.1 k = 0 ∧
      (∀ pr ∈ (runSends exec now fresh cfg reqs st).1,
        pr.1.idempotencyKey = k → ∀ q, pr.2.payload = some q → q = c.payload)) ∧
    (lookupA st.dedupe (chatKey k) = none →
      execInvocations (runSends exec now fresh cfg reqs st).2.1 k ≤ 1 ∧
      (∀ pr ∈ (runSends exec now fresh cfg reqs st).1,
        pr.1.idempotencyKey = k → ∀ q, pr.2.payload = some q →
          ∃ c, lookupA (runSends exec now fresh cfg reqs st).2.2.dedupe (chatKey k)
              = some c ∧ q = c.payload))) := by
  intro reqs
  induction reqs with
  | nil =>
    intro st
    constructor
    · intro c hc
      refine ⟨hc, rfl, ?_⟩
      intro pr hpr
      simp [runSends] at hpr
    · intro hn
      refine ⟨Nat.zero_le 1, ?_⟩
      intro pr hpr
      simp [runSends] at hpr
  | cons p rest ih =>
    intro st
    rw [runSends_cons]
    constructor
    · intro c hc
      have hpres := chatSend_dedupe_preserved exec now fresh cfg p st (chatKey k) c hc
      have ihA := (ih (chatSend exec now fresh cfg p st).2.1).1 c hpres
      have hcnt0 : execInvocations (chatSend exec now fresh cfg p st).2.2 k = 0 := by
        by_cases hpk : p.idempotencyKey = k
        · have hc2 : lookupA st.dedupe (chatKey p.idempotencyKey) = some c := by
            rw [hpk]
            exact hc
          rw [(chatSend_same_key_cached exec now fresh cfg p st c hc2).1]
          rfl
        · exact (chatSend_other_key exec now fresh cfg p st k hpk).1
      refine ⟨ihA.1, ?_, ?_⟩
      · show execInvocations ((chatSend exec now fresh cfg p st).2.2 ++
          (runSends exec now fresh cfg rest (chatSend exec now fresh cfg p st).2.1).2.1) k
          = 0
        rw [execInvocations_append, hcnt0, ihA.2.1]
      · intro pr hpr hk q hq
        rcases List.mem_cons.mp hpr with he | hm2
        · subst he
          have hc2 : lookupA st.dedupe (chatKey p.idempotencyKey) = some c := by
            rw [show p.idempotencyKey = k from hk]
            exact hc
          exact (chatSend_same_key_cached exec now fresh cfg p st c hc2).2.2 q hq
        · exact ihA.2.2 pr hm2 hk q hq
    · intro hn
      by_cases hpk : p.idempotencyKey = k
      · have hn2 : lookupA st.dedupe (chatKey p.idempotencyKey) = none := by
          rw [hpk]
          exact hn
        rcases chatSend_same_key_miss exec now fresh cfg p st hn2 with
          ⟨htr, hded, hpay⟩ | ⟨de, hcnt, hlook, hpay⟩
        · have hn3 : lookupA (chatSend exec now fresh cfg p st).2.1.dedupe (chatKey k)
              = none := by
            rw [hded]
            exact hn
          have ihB := (ih (chatSend exec now fresh cfg p st).2.1).2 hn3
          refine ⟨?_, ?_⟩
          · show execInvocations ((chatSend exec now fresh cfg p st).2.2 ++
              (runSends exec now fresh cfg rest
                (chatSend exec now fresh cfg p st).2.1).2.1) k ≤ 1
            rw [execInvocations_append, htr]
            have h0 : execInvocations ([] : List GatewayAction) k = 0 := rfl
            omega
          · intro pr hpr hk q hq
            rcases List.mem_cons.mp hpr with he | hm2
            · subst he
              rw [hpay] at hq
              exact Option.noConfusion hq
            · exact ihB.2 pr hm2 hk q hq
        · have hlook2 : lookupA (chatSend exec now fresh cfg p st).2.1.dedupe (chatKey k)
              = some de := by
            rw [← hpk]
            exact hlook
          have ihA := (ih (chatSend exec now fresh cfg p st).2.1).1 de hlook2
          refine ⟨?_, ?_⟩
          · show execInvocations ((chatSend exec now fresh cfg p st).2.2 ++
              (runSends exec now fresh cfg rest
                (chatSend exec now fresh cfg p st).2.1).2.1) k ≤ 1
            rw [execInvocations_append, ihA.2.1]
            rw [hpk] at hcnt
            omega
          · intro pr hpr hk q hq
            rcases List.mem_cons.mp hpr with he | hm2
            · subst he
              rw [hpay] at hq
              refine ⟨de, ihA.1, ?_⟩
              have := Option.some.inj hq
              exact this.symm
            · exact ⟨de, ihA.1, ihA.2.2 pr hm2 hk q hq⟩
      · have hstep := chatSend_other_key exec now fresh cfg p st k hpk
        have hn3 : lookupA (chatSend exec now fresh cfg p st).2.1.dedupe (chatKey k)
            = none := by
          rw [hstep.2]
          exact hn
        have ihB := (ih (chatSend exec now fresh cfg p st).2.1).2 hn3
        refine ⟨?_, ?_⟩
        · show execInvocations ((chatSend exec now fresh cfg p st).2.2 ++
            (runSends exec now fresh cfg rest
              (chatSend exec now fresh cfg p st).2.1).2.1) k ≤ 1
          rw [execInvocations_append, hstep.1]
          omega
        · intro pr hpr hk q hq
          rcases List.mem_cons.mp hpr with he | hm2
          · subst he
            exact absurd hk hpk
          · exact ihB.2 pr hm2 hk q hq

/-- C1 (amended): for a `chat.send` request that passes the attachment step
and the send policy, a cached terminal result for its idempotency key is
replayed verbatim (flagged cached): the response is exactly the cached
ok/payload/error, the only state change is the run-context registration —
in particular the session store is untouched — and the trace is empty, so
the executor is not invoked and nothing is saved; moreover, over any
sequence of requests starting from a state where a key `k` is uncached, the
executor runs at most once for `k` and all payload-bearing responses for `k`
carry the same payload. -/
theorem chat_send_dedup_replay (exec : ExecArgs → ExecResult) (now : Nat)
    (fresh : String) (cfg : Cfg) (p : ChatSendParams) (st : GatewayState)
    (c : DedupEntry) (m : String)
    (hm : mergedMessage p = Except.ok m)
    (hd : policyOf cfg p st ≠ PolicyAction.deny)
    (hc : lookupA st.dedupe (chatKey p.idempotencyKey) = some c) :
    chatSend exec now fresh cfg p st =
      ({ ok := c.ok, payload := some c.payload, error := c.error, cached := true },
       registerAgentRunContext p.idempotencyKey p.sessionKey st, []) ∧
    (chatSend exec now fresh cfg p st).2.1.store = st.store ∧
    (∀ (reqs : List ChatSendParams) (st0 : GatewayState) (k : String),
      lookupA st0.dedupe (chatKey k) = none →
      execInvocations (runSends exec now fresh cfg reqs st0).2.1 k ≤ 1 ∧
      (∀ pr1 ∈ (runSends exec now fresh cfg reqs st0).1,
       ∀ pr2 ∈ (runSends exec now fresh cfg reqs st0).1,
        pr1.1.idempotencyKey = k → pr2.1.idempotencyKey = k →
        ∀ q1 q2, pr1.2.payload = some q1 → pr2.2.payload = some q2 → q1 = q2)) := by
  have e := chatSend_cached exec now fresh cfg p st m c hm hd hc
  refine ⟨e, ?_, ?_⟩
  · rw [e]
    rfl
  · intro reqs st0 k hn
    have hB := (runSends_key_facts exec now fresh cfg k reqs st0).2 hn
    refine ⟨hB.1, ?_⟩
    intro pr1 h1 pr2 h2 hk1 hk2 q1 q2 hq1 hq2
    obtain ⟨c1, hc1, he1⟩ := hB.2 pr1 h1 hk1 q1 hq1
    obtain ⟨c2, hc2, he2⟩ := hB.2 pr2 h2 hk2 q2 hq2
    rw [hc1] at hc2
    rw [he1, he2, Option.some.inj hc2]

/-- Witness for C1 replay at the cached key "kc" on an allow-all session. -/
theorem chat_send_dedup_replay_witness :
    mergedMessage pCached = Except.ok "hi" ∧
    policyOf cfg0 pCached stCached ≠ PolicyAction.deny ∧
    lookupA stCached.dedupe (chatKey pCached.idempotencyKey) = some cachedEntry ∧
    chatSend execAlwaysOk 0 "fresh" cfg0 pCached stCached =
      ({ ok := cachedEntry.ok, payload := some cachedEntry.payload,
         error := cachedEntry.error, cached := true },
       registerAgentRunContext pCached.idempotencyKey pCached.sessionKey stCached, []) :=
  ⟨rfl, by decide, rfl,
   (chat_send_dedup_replay execAlwaysOk 0 "fresh" cfg0 pCached stCached cachedEntry
     "hi" rfl (by decide) rfl).1⟩

/-- C1 counterexample: with a cached ok-result for key "kc" but a deny-all
send policy on the session, the handler answers the policy error — not the
cached replay — because the policy gate precedes the dedup check. -/
theorem chat_send_dedup_replay_cex :
    lookupA stCachedDeny.dedupe (chatKey pCachedDeny.idempotencyKey)
      = some cachedEntry ∧
    cachedEntry.ok = true ∧
    (chatSend execAlwaysOk 0 "fresh" cfg0 pCachedDeny stCachedDeny).1
      = { ok := false, payload := none,
          error := some (errorShape invalidRequestCode "send blocked by session policy"),
          cached := false } ∧
    ({ ok := false, payload := none,
       error := some (errorShape invalidRequestCode "send blocked by session policy"),
       cached := false } : ChatSendResponse)
      ≠ { ok := cachedEntry.ok, payload := some cachedEntry.payload,
          error := cachedEntry.error, cached := true } := by
  decide

/-- C10: a run that reaches the executor (merge ok, policy allow, no cached
entry) produces exactly the trace save-store, invoke-executor, cache-write,
writing the dedup entry for its key exactly once at its terminal state; on
success the entry is ok with payload `{runId, status:"ok"}` and the response
is ok with it, on failure the entry carries payload `{runId, status:"error",
summary}` and an UNAVAILABLE error and the response mirrors them; and any
later `chat.send` leaves the written entry intact — readers never overwrite
it. -/
theorem chat_send_cache_write_once (exec : ExecArgs → ExecResult) (now : Nat)
    (fresh : String) (cfg : Cfg) (p : ChatSendParams) (st : GatewayState) (m : String)
    (hm : mergedMessage p = Except.ok m)
    (hd : policyOf cfg p st ≠ PolicyAction.deny)
    (hn : lookupA st.dedupe (chatKey p.idempotencyKey) = none) :
    chatSend exec now fresh cfg p st
      = ({ ok := (terminalEntryFor exec now fresh cfg p st m).ok,
           payload := some (terminalEntryFor exec now fresh cfg p st m).payload,
           error := (terminalEntryFor exec now fresh cfg p st m).error,
           cached := false },
         runFinalState now fresh p st (terminalEntryFor exec now fresh cfg p st m),
         [GatewayAction.saveStore (runStoreAfter now fresh p st),
          GatewayAction.invokeExecutor (execArgsFor cfg p m (sessionIdOf fresh st p)),
          GatewayAction.cacheWrite (chatKey p.idempotencyKey)
            (terminalEntryFor exec now fresh cfg p st m)]) ∧
    lookupA (chatSend exec now fresh cfg p st).2.1.dedupe (chatKey p.idempotencyKey)
      = some (terminalEntryFor exec now fresh cfg p st m) ∧
    (exec (execArgsFor cfg p m (sessionIdOf fresh st p)) = ExecResult.success →
      terminalEntryFor exec now fresh cfg p st m = okEntryFor now p ∧
      (okEntryFor now p).ok = true ∧
      (okEntryFor now p).payload
        = { runId := p.idempotencyKey, status := "ok", summary := none } ∧
      (okEntryFor now p).error = none) ∧
    (∀ msg, exec (execArgsFor cfg p m (sessionIdOf fresh st p))
        = ExecResult.failure msg →
      terminalEntryFor exec now fresh cfg p st m = errEntryFor now p msg ∧
      (errEntryFor now p msg).ok = false ∧
      (errEntryFor now p msg).payload
        = { runId := p.idempotencyKey, status := "error", summary := some msg } ∧
      (errEntryFor now p msg).error = some (errorShape unavailableCode msg)) ∧
    (∀ (q : ChatSendParams) (now2 : Nat) (fresh2 : String),
      lookupA (chatSend exec now2 fresh2 cfg q
          (chatSend exec now fresh cfg p st).2.1).2.1.dedupe
          (chatKey p.idempotencyKey)
        = some (terminalEntryFor exec now fresh cfg p st m)) := by
  have e := chatSend_miss exec now fresh cfg p st m hm hd hn
  have h2 : lookupA (chatSend exec now fresh cfg p st).2.1.dedupe
      (chatKey p.idempotencyKey) = some (terminalEntryFor exec now fresh cfg p st m) := by
    rw [e]
    exact lookupA_insertA_self _ _ _
  refine ⟨by rw [e]; rfl, h2, ?_, ?_, ?_⟩
  · intro hx
    refine ⟨?_, rfl, rfl, rfl⟩
    unfold terminalEntryFor
    rw [hx]
  · intro msg hx
    refine ⟨?_, rfl, rfl, rfl⟩
    unfold terminalEntryFor
    rw [hx]
  · intro q now2 fresh2
    exact chatSend_dedupe_preserved exec now2 fresh2 cfg q
      (chatSend exec now fresh cfg p st).2.1 (chatKey p.idempotencyKey)
      (terminalEntryFor exec now fresh cfg p st m) h2

/-- Witness for C10 on a fresh key with a succeeding executor. -/
theorem chat_send_cache_write_once_witness :
    mergedMessage pRoute = Except.ok "hello" ∧
    policyOf cfg0 pRoute stRoute ≠ PolicyAction.deny ∧
    lookupA stRoute.dedupe (chatKey pRoute.idempotencyKey) = none ∧
    lookupA (chatSend execAlwaysOk 5 "fresh" cfg0 pRoute stRoute).2.1.dedupe
        (chatKey pRoute.idempotencyKey)
      = some (terminalEntryFor execAlwaysOk 5 "fresh" cfg0 pRoute stRoute "hello") :=
  ⟨rfl, by decide, rfl,
   (chat_send_cache_write_once execAlwaysOk 5 "fresh" cfg0 pRoute stRoute "hello"
     rfl (by decide) rfl).2.1⟩

end OpenClaw
